import Mathlib

/-!
Verification of the FareShare persistence layer
(`src/backend/src/config/db.py`, `src/backend/src/models/booking.py`,
`src/backend/src/models/review.py`).

The Python module is shallowly embedded:
* URL strings are `List Char`; Python's `str.replace`, `in`, and
  `split(sep)[0]` become the executable functions `replacePg`,
  `containsSub` and `takeBeforeFirst` below.
* The module-level globals `async_engine` / `async_session_factory`
  become the record `DbState`; `init_db`, `close_db` and
  `get_async_session` are state-passing functions.
* The two ORM tables are lists of rows; the declared CHECK, UNIQUE and
  FOREIGN KEY constraints become guards of the insert functions, and the
  declared `ondelete="CASCADE"` behaviour becomes the delete functions.
-/

namespace FareShare

/-! ### Character-list string primitives (Python string operations) -/

/-- Python `sub in s` (substring containment) on `List Char`. -/
def containsSub (pat : List Char) : List Char → Bool
  | [] => pat.isPrefixOf ([] : List Char)
  | c :: t => pat.isPrefixOf (c :: t) || containsSub pat t

/-- Python `s.split(pat)[0]`: the prefix of `s` strictly before the first
occurrence of `pat` (all of `s` when `pat` does not occur). -/
def takeBeforeFirst (pat : List Char) : List Char → List Char
  | [] => []
  | c :: t => if pat.isPrefixOf (c :: t) then [] else c :: takeBeforeFirst pat t

/-- The suffix of `s` starting at the first occurrence of `pat`
(empty when `pat` does not occur). -/
def fromFirst (pat : List Char) : List Char → List Char
  | [] => []
  | c :: t => if pat.isPrefixOf (c :: t) then c :: t else fromFirst pat t

/-- The scheme searched for at `db.py` line 29. -/
def pgPat : List Char := "postgresql://".toList

/-- The replacement scheme of `db.py` line 30. -/
def pgRep : List Char := "postgresql+asyncpg://".toList

/-- Fuel-indexed worker for `replacePg`; the fuel only ensures structural
termination and is always at least the length of the remaining input. -/
def replacePgAux : Nat → List Char → List Char
  | 0, s => s
  | _ + 1, [] => []
  | fuel + 1, c :: t =>
    if pgPat.isPrefixOf (c :: t) then pgRep ++ replacePgAux fuel (List.drop 12 t)
    else c :: replacePgAux fuel t

/-- Python `s.replace("postgresql://", "postgresql+asyncpg://")`:
every non-overlapping occurrence is replaced, scanning left to right
(`db.py` line 30). -/
def replacePg (s : List Char) : List Char := replacePgAux s.length s

/-! ### The module-level URL computation (`db.py` lines 28-43) -/

/-- The marker of `db.py` line 36. -/
def renderPat : List Char := "render.com".toList

/-- The marker of `db.py` line 38. -/
def qmPat : List Char := "?sslmode=".toList

/-- The marker of `db.py` line 40. -/
def ampPat : List Char := "&sslmode=".toList

/-- Lines 28-32 of `db.py`: rewrite the scheme for async support. -/
def schemeRewrite (u : List Char) : List Char :=
  if pgPat.isPrefixOf u then replacePg u else u

/-- Lines 34-43 of `db.py`: for Render URLs, drop the sslmode parameter
by splitting at the marker and keeping the first piece. -/
def stripSslmode (u : List Char) : List Char :=
  if containsSub renderPat u then
    if containsSub qmPat u then takeBeforeFirst qmPat u
    else if containsSub ampPat u then takeBeforeFirst ampPat u
    else u
  else u

/-- The module-level constant `ASYNC_DATABASE_URL` as a function of
`DATABASE_URL` (`db.py` lines 28-43). -/
def asyncDatabaseUrl (u : List Char) : List Char :=
  stripSslmode (schemeRewrite u)

/-! ### Module import and connection lifecycle (`db.py` lines 23-128) -/

/-- An error raised during Python module import. -/
inductive StartupError where
  | valueError (msg : String)
deriving DecidableEq

/-- The engine configuration built by `create_async_engine`
(`db.py` lines 76-84); `disposed` models the engine object's internal
state after `dispose()`. -/
structure EngineConf where
  url : List Char
  connectArgsSsl : Bool
  echo : Bool
  poolSize : Nat
  maxOverflow : Nat
  poolPrePing : Bool
  poolRecycle : Nat
  disposed : Bool
deriving DecidableEq

/-- The module-level globals `async_engine` and `async_session_factory`
(`db.py` lines 46-47); `none` models the Python value `None`. -/
structure DbState where
  asyncEngine : Option EngineConf
  asyncSessionFactory : Option Unit
deriving DecidableEq

/-- The state established by importing `db.py`: the validated
`DATABASE_URL`, the derived `ASYNC_DATABASE_URL`, and the initial
globals. -/
structure DbModule where
  databaseUrl : List Char
  asyncUrl : List Char
  state : DbState
deriving DecidableEq

/-- Module import of `db.py` (lines 23-47): `env` is the value of the
`DATABASE_URL` environment variable (`none` = unset).  `if not
DATABASE_URL` is true for both `None` and the empty string, raising
`ValueError` before any engine or session state exists. -/
def moduleLoad (env : Option (List Char)) : Except StartupError DbModule :=
  match env with
  | none => .error (.valueError "DATABASE_URL environment variable is required")
  | some s =>
    if s.isEmpty then .error (.valueError "DATABASE_URL environment variable is required")
    else .ok { databaseUrl := s, asyncUrl := asyncDatabaseUrl s,
               state := { asyncEngine := none, asyncSessionFactory := none } }

/-- Function `init_db` (lines 53-91): builds the engine from
`ASYNC_DATABASE_URL` with `connect_args["ssl"] = True` exactly when the
URL contains `render.com` (lines 69-84), then sets the session
factory. -/
def init_db (asyncUrl : List Char) (_st : DbState) : DbState :=
  { asyncEngine := some
      { url := asyncUrl
        connectArgsSsl := containsSub renderPat asyncUrl
        echo := false
        poolSize := 20
        maxOverflow := 10
        poolPrePing := true
        poolRecycle := 3600
        disposed := false }
    asyncSessionFactory := some () }

/-- Function `close_db` (lines 94-102): disposes the engine object when
present; the global bindings themselves are never reassigned. -/
def close_db (st : DbState) : DbState :=
  match st.asyncEngine with
  | some e => { st with asyncEngine := some { e with disposed := true } }
  | none => st

/-! ### Scoped sessions (`get_async_session`, lines 105-128) -/

/-- Observable per-session effects: how often the manager committed,
rolled back, and released the underlying connection, plus whether a
connection is still attached. -/
structure SessionState where
  committed : Nat
  rolledBack : Nat
  connReleased : Nat
  connActive : Bool
deriving DecidableEq

/-- A session as produced by the session factory. -/
def freshSession : SessionState :=
  { committed := 0, rolledBack := 0, connReleased := 0, connActive := true }

/-- Effect of `session.commit()`. -/
def sessionCommit (s : SessionState) : SessionState :=
  { s with committed := s.committed + 1 }

/-- Effect of `session.rollback()`. -/
def sessionRollback (s : SessionState) : SessionState :=
  { s with rolledBack := s.rolledBack + 1 }

/-- Effect of `session.close()`: releases the pooled connection on first
call, and is a no-op on an already-closed session (SQLAlchemy close is
idempotent). -/
def sessionClose (s : SessionState) : SessionState :=
  if s.connActive then
    { s with connActive := false, connReleased := s.connReleased + 1 }
  else s

/-- Result of one use of `get_async_session`: either the `RuntimeError`
raised before any session is yielded, or the final session state
together with the exception re-raised out of the scope (if any). -/
inductive ScopeResult where
  | notInit
  | completed (s : SessionState) (reraised : Option Nat)
deriving DecidableEq

/-- Whether the scope failed with the not-initialized `RuntimeError`. -/
def ScopeResult.isNotInit : ScopeResult → Bool
  | .notInit => true
  | .completed _ _ => false

/-- Function `get_async_session` (lines 105-128).  `blockOutcome` is the
behaviour of the enclosed `async with` block: `none` when it completes,
`some e` when it raises exception `e` (exceptions are identified by a
`Nat` tag).  The embedding follows the source control flow: the factory
check (117-118), then `try: yield; commit / except: rollback; raise /
finally: close`, and the `async with session` exit which closes again. -/
def get_async_session (st : DbState) (blockOutcome : Option Nat) : ScopeResult :=
  match st.asyncSessionFactory with
  | none => .notInit
  | some _ =>
    let s0 := freshSession
    match blockOutcome with
    | none =>
      let s1 := sessionCommit s0
      let s2 := sessionClose s1
      .completed (sessionClose s2) none
    | some e =>
      let s1 := sessionRollback s0
      let s2 := sessionClose s1
      .completed (sessionClose s2) (some e)

/-! ### The relational tables (`booking.py`, `review.py`)

Rows of `bookings` and `reviews` as declared by the two models.  UUIDs
are modelled by `Nat` identifiers, `Numeric(6,2)` amounts by integer
cents, and server-set timestamps by a `Nat` clock value.  The declared
constraints become guards of the insert operations, evaluated in the
order the store applies them: CHECK constraints, then UNIQUE indexes,
then FOREIGN KEY references. -/

/-- An error surfaced by the store on a rejected write. -/
inductive DbError where
  | checkViolation (constraintName : String)
  | uniqueViolation (constraintName : String)
  | foreignKeyViolation (column : String)
deriving DecidableEq

/-- A stored row of the `bookings` table (`booking.py` lines 37-118). -/
structure BookingRow where
  id : Nat
  ride_id : Nat
  passenger_id : Nat
  seats_reserved : Int
  amount_paid : Int
  status : String
  booked_at : Nat
deriving DecidableEq

/-- A stored row of the `reviews` table (`review.py` lines 50-126). -/
structure ReviewRow where
  id : Nat
  ride_id : Nat
  reviewer_id : Nat
  reviewee_id : Nat
  rating : Int
  comment : Option String
  created_at : Nat
deriving DecidableEq

/-- The database: the referenced `rides` and `users` tables (only their
primary keys matter here) and the two tables defined in this
fragment. -/
structure Db where
  rides : List Nat
  users : List Nat
  bookings : List BookingRow
  reviews : List ReviewRow
deriving DecidableEq

/-- The literal set of the `check_booking_status` constraint
(`booking.py` lines 134-138). -/
def bookingStatuses : List String := ["pending", "confirmed", "cancelled", "completed"]

/-- An attempted `bookings` insert; `none` for `amount_paid` or `status`
means the column was omitted so its server default applies
(`server_default="0.00"` at line 90, `server_default="pending"` at
line 104 of `booking.py`). -/
structure BookingInsert where
  ride_id : Nat
  passenger_id : Nat
  seats_reserved : Int
  amount_paid : Option Int
  status : Option String
deriving DecidableEq

/-- Insert into `bookings`: defaults are applied, then the three CHECK
constraints of `booking.py` lines 123-139, then the two
`ForeignKey` references (lines 53-70). -/
def insertBooking (db : Db) (ins : BookingInsert) (newId now : Nat) : Except DbError Db :=
  let row : BookingRow :=
    { id := newId
      ride_id := ins.ride_id
      passenger_id := ins.passenger_id
      seats_reserved := ins.seats_reserved
      amount_paid := ins.amount_paid.getD 0
      status := ins.status.getD "pending"
      booked_at := now }
  if ¬ (0 < row.seats_reserved) then .error (.checkViolation "check_seats_reserved_positive")
  else if ¬ (0 ≤ row.amount_paid) then .error (.checkViolation "check_amount_positive")
  else if ¬ (row.status ∈ bookingStatuses) then .error (.checkViolation "check_booking_status")
  else if ¬ (row.ride_id ∈ db.rides) then .error (.foreignKeyViolation "bookings.ride_id")
  else if ¬ (row.passenger_id ∈ db.users) then .error (.foreignKeyViolation "bookings.passenger_id")
  else .ok { db with bookings := db.bookings ++ [row] }

/-- An attempted `reviews` insert (`rating` is required, `comment`
optional; `review.py` lines 104-117). -/
structure ReviewInsert where
  ride_id : Nat
  reviewer_id : Nat
  reviewee_id : Nat
  rating : Int
  comment : Option String
deriving DecidableEq

/-- Whether a stored review has the given (ride, reviewer, reviewee)
triple — the columns of `unique_review_per_ride_pair`
(`review.py` lines 141-144). -/
def reviewTripleMatches (ins : ReviewInsert) (r : ReviewRow) : Bool :=
  r.ride_id == ins.ride_id && r.reviewer_id == ins.reviewer_id && r.reviewee_id == ins.reviewee_id

/-- Insert into `reviews`: the `check_rating_range` CHECK
(`review.py` lines 133-136), then the composite UNIQUE constraint
(lines 141-144), then the three `ForeignKey` references
(lines 67-96). -/
def insertReview (db : Db) (ins : ReviewInsert) (newId now : Nat) : Except DbError Db :=
  let row : ReviewRow :=
    { id := newId
      ride_id := ins.ride_id
      reviewer_id := ins.reviewer_id
      reviewee_id := ins.reviewee_id
      rating := ins.rating
      comment := ins.comment
      created_at := now }
  if ¬ (1 ≤ row.rating ∧ row.rating ≤ 5) then .error (.checkViolation "check_rating_range")
  else if db.reviews.any (reviewTripleMatches ins) then .error (.uniqueViolation "unique_review_per_ride_pair")
  else if ¬ (row.ride_id ∈ db.rides) then .error (.foreignKeyViolation "reviews.ride_id")
  else if ¬ (row.reviewer_id ∈ db.users) then .error (.foreignKeyViolation "reviews.reviewer_id")
  else if ¬ (row.reviewee_id ∈ db.users) then .error (.foreignKeyViolation "reviews.reviewee_id")
  else .ok { db with reviews := db.reviews ++ [row] }

/-- Deleting a ride: the `ondelete="CASCADE"` declarations on
`Booking.ride_id` (`booking.py` line 55) and `Review.ride_id`
(`review.py` line 69) remove every dependent row together with the
ride; nothing blocks the delete. -/
def deleteRide (db : Db) (rid : Nat) : Db :=
  { db with
    rides := db.rides.filter (fun x => x ≠ rid)
    bookings := db.bookings.filter (fun b => b.ride_id ≠ rid)
    reviews := db.reviews.filter (fun r => r.ride_id ≠ rid) }

/-- Deleting a user: the `ondelete="CASCADE"` declarations on
`Booking.passenger_id` (`booking.py` line 66), `Review.reviewer_id`
(`review.py` line 80) and `Review.reviewee_id` (line 92) remove every
dependent row together with the user. -/
def deleteUser (db : Db) (uid : Nat) : Db :=
  { db with
    users := db.users.filter (fun x => x ≠ uid)
    bookings := db.bookings.filter (fun b => b.passenger_id ≠ uid)
    reviews := db.reviews.filter (fun r => r.reviewer_id ≠ uid ∧ r.reviewee_id ≠ uid) }

/-- Referential integrity: every stored booking and review references an
existing ride and existing users. -/
def refIntegrity (db : Db) : Prop :=
  (∀ b ∈ db.bookings, b.ride_id ∈ db.rides ∧ b.passenger_id ∈ db.users) ∧
  (∀ r ∈ db.reviews, r.ride_id ∈ db.rides ∧ r.reviewer_id ∈ db.users ∧ r.reviewee_id ∈ db.users)

instance (db : Db) : Decidable (refIntegrity db) := by
  unfold refIntegrity
  infer_instance

/-! ### Claims about the connection lifecycle -/

/-- C1: for every scoped session obtained through `get_async_session`
with the factory initialized, a block that completes leads to exactly
one commit, no rollback, exactly one connection release, and no
re-raised exception; a block that raises exception `e` leads to no
commit, one rollback, exactly one connection release, and `e` re-raised
unchanged. -/
theorem scoped_session_commit_rollback_close (st : DbState)
    (h : st.asyncSessionFactory.isSome = true) :
    get_async_session st none =
      .completed { committed := 1, rolledBack := 0, connReleased := 1, connActive := false } none
    ∧ ∀ e : Nat, get_async_session st (some e) =
      .completed { committed := 0, rolledBack := 1, connReleased := 1, connActive := false } (some e) := by
  obtain ⟨eng, fac⟩ := st
  cases fac with
  | none => simp at h
  | some u => exact ⟨rfl, fun e => rfl⟩

/-- Witness for C1 at a concrete initialized state and exception tag. -/
theorem scoped_session_commit_rollback_close_witness :
    get_async_session { asyncEngine := none, asyncSessionFactory := some () } none =
      .completed { committed := 1, rolledBack := 0, connReleased := 1, connActive := false } none
    ∧ get_async_session { asyncEngine := none, asyncSessionFactory := some () } (some 7) =
      .completed { committed := 0, rolledBack := 1, connReleased := 1, connActive := false } (some 7) :=
  ⟨(scoped_session_commit_rollback_close { asyncEngine := none, asyncSessionFactory := some () } rfl).1,
   (scoped_session_commit_rollback_close { asyncEngine := none, asyncSessionFactory := some () } rfl).2 7⟩

/-- C2: requesting a session while the factory global is still `None`
raises the not-initialized `RuntimeError` without yielding a session;
after `init_db` has run, `get_async_session` completes and never raises
that error. -/
theorem session_requires_init (st : DbState) (url : List Char) (o : Option Nat) :
    (st.asyncSessionFactory = none → get_async_session st o = .notInit) ∧
    (get_async_session (init_db url st) o).isNotInit = false := by
  constructor
  · intro h
    simp [get_async_session, h]
  · cases o <;> rfl

/-- Witness for C2: a concrete uninitialized state raises, and the same
state after `init_db` does not. -/
theorem session_requires_init_witness :
    get_async_session { asyncEngine := none, asyncSessionFactory := none } none = .notInit ∧
    (get_async_session
        (init_db [] { asyncEngine := none, asyncSessionFactory := none }) none).isNotInit = false :=
  ⟨(session_requires_init { asyncEngine := none, asyncSessionFactory := none } [] none).1 rfl,
   (session_requires_init { asyncEngine := none, asyncSessionFactory := none } [] none).2⟩

/-- C7: with `DATABASE_URL` unset, and likewise with it set to the empty
string, module import fails with the `ValueError` of `db.py` line 26
before any engine or session state is created (no `DbModule` is
produced). -/
theorem missing_database_url_fatal :
    moduleLoad none = .error (.valueError "DATABASE_URL environment variable is required") ∧
    moduleLoad (some []) = .error (.valueError "DATABASE_URL environment variable is required") :=
  ⟨rfl, rfl⟩

/-- C9: `close_db` never reassigns the module globals: the session
factory is untouched and the engine binding stays set (only the engine
object is disposed), so after `init_db` followed by `close_db` a
`get_async_session` call still does not raise the not-initialized
error. -/
theorem close_db_preserves_globals (st : DbState) (url : List Char) (o : Option Nat) :
    (close_db st).asyncSessionFactory = st.asyncSessionFactory ∧
    (close_db st).asyncEngine.isSome = st.asyncEngine.isSome ∧
    (get_async_session (close_db (init_db url st)) o).isNotInit = false := by
  obtain ⟨eng, fac⟩ := st
  refine ⟨?_, ?_, ?_⟩
  · cases eng <;> rfl
  · cases eng <;> rfl
  · cases o <;> rfl

/-! ### Claims about the table constraints -/

/-- Whether a write outcome is a rejection by a CHECK constraint. -/
def isCheckViolation : Except DbError Db → Bool
  | .error (.checkViolation _) => true
  | _ => false

/-- C3: a `bookings` write violating `seats_reserved > 0`,
`amount_paid >= 0` or the status enumeration is rejected with a
CHECK-constraint violation; an insert with `seats_reserved = 1` that
omits `amount_paid` and `status` (with valid references) is accepted
and stored with `amount_paid = 0` and `status = "pending"`. -/
theorem booking_constraints_and_defaults (db : Db) (ins : BookingInsert) (newId now : Nat) :
    (¬ (0 < ins.seats_reserved ∧ 0 ≤ ins.amount_paid.getD 0 ∧
          ins.status.getD "pending" ∈ bookingStatuses) →
      isCheckViolation (insertBooking db ins newId now) = true) ∧
    (ins.seats_reserved = 1 → ins.amount_paid = none → ins.status = none →
      ins.ride_id ∈ db.rides → ins.passenger_id ∈ db.users →
      insertBooking db ins newId now = .ok { db with bookings := db.bookings ++
        [{ id := newId, ride_id := ins.ride_id, passenger_id := ins.passenger_id,
           seats_reserved := 1, amount_paid := 0, status := "pending", booked_at := now }] }) := by
  constructor
  · intro h
    by_cases h1 : 0 < ins.seats_reserved
    · by_cases h2 : 0 ≤ ins.amount_paid.getD 0
      · by_cases h3 : ins.status.getD "pending" ∈ bookingStatuses
        · exact absurd ⟨h1, h2, h3⟩ h
        · simp [insertBooking, h1, h2, h3, isCheckViolation]
      · simp [insertBooking, h1, h2, isCheckViolation]
    · simp [insertBooking, h1, isCheckViolation]
  · intro hs ha hst hr hp
    simp [insertBooking, hs, ha, hst, hr, hp, bookingStatuses]

/-- Witness for C3: in a store with ride 1 and user 2, a zero-seat
insert is rejected by a CHECK constraint, and a one-seat insert with
omitted amount and status is stored with the declared defaults. -/
theorem booking_constraints_and_defaults_witness :
    isCheckViolation (insertBooking ⟨[1], [2], [], []⟩ ⟨1, 2, 0, none, none⟩ 10 100) = true ∧
    insertBooking ⟨[1], [2], [], []⟩ ⟨1, 2, 1, none, none⟩ 11 101 =
      .ok ⟨[1], [2], [⟨11, 1, 2, 1, 0, "pending", 101⟩], []⟩ :=
  ⟨(booking_constraints_and_defaults ⟨[1], [2], [], []⟩ ⟨1, 2, 0, none, none⟩ 10 100).1 (by decide),
   (booking_constraints_and_defaults ⟨[1], [2], [], []⟩ ⟨1, 2, 1, none, none⟩ 11 101).2
     rfl rfl rfl (by decide) (by decide)⟩

/-- C4: a `reviews` write whose rating lies outside `1..5` is rejected
with the `check_rating_range` CHECK violation (so rating 6 fails), and a
write with a rating in range, a fresh triple, and valid references is
accepted (so rating 5 succeeds). -/
theorem review_rating_constraint (db : Db) (ins : ReviewInsert) (newId now : Nat) :
    (¬ (1 ≤ ins.rating ∧ ins.rating ≤ 5) →
      insertReview db ins newId now = .error (.checkViolation "check_rating_range")) ∧
    (1 ≤ ins.rating → ins.rating ≤ 5 →
      db.reviews.any (reviewTripleMatches ins) = false →
      ins.ride_id ∈ db.rides → ins.reviewer_id ∈ db.users → ins.reviewee_id ∈ db.users →
      insertReview db ins newId now = .ok { db with reviews := db.reviews ++
        [{ id := newId, ride_id := ins.ride_id, reviewer_id := ins.reviewer_id,
           reviewee_id := ins.reviewee_id, rating := ins.rating, comment := ins.comment,
           created_at := now }] }) := by
  constructor
  · intro h
    simp [insertReview, h]
  · intro h1 h5 hdup hr hw he
    simp [insertReview, h1, h5, hdup, hr, hw, he]

/-- Witness for C4: with ride 1 and users 2, 3 present, a rating-6
review is rejected by `check_rating_range` and a rating-5 review is
stored. -/
theorem review_rating_constraint_witness :
    insertReview ⟨[1], [2, 3], [], []⟩ ⟨1, 2, 3, 6, none⟩ 20 200 =
      .error (.checkViolation "check_rating_range") ∧
    insertReview ⟨[1], [2, 3], [], []⟩ ⟨1, 2, 3, 5, none⟩ 21 201 =
      .ok ⟨[1], [2, 3], [], [⟨21, 1, 2, 3, 5, none, 201⟩]⟩ :=
  ⟨(review_rating_constraint ⟨[1], [2, 3], [], []⟩ ⟨1, 2, 3, 6, none⟩ 20 200).1 (by decide),
   (review_rating_constraint ⟨[1], [2, 3], [], []⟩ ⟨1, 2, 3, 5, none⟩ 21 201).2
     (by decide) (by decide) rfl (by decide) (by decide) (by decide)⟩

/-- Two review rows differ somewhere on the
(ride, reviewer, reviewee) triple. -/
def tripleDistinct (r s : ReviewRow) : Prop :=
  ¬ (r.ride_id = s.ride_id ∧ r.reviewer_id = s.reviewer_id ∧ r.reviewee_id = s.reviewee_id)

/-- C5: after a successful review insert, a second insert with the same
(ride, reviewer, reviewee) triple (and an in-range rating) fails with
the `unique_review_per_ride_pair` uniqueness violation, the first row is
still stored, and pairwise triple-distinctness of the stored reviews is
preserved by the successful insert. -/
theorem review_triple_uniqueness (db db' : Db) (a b : ReviewInsert) (i1 n1 i2 n2 : Nat)
    (ht1 : b.ride_id = a.ride_id) (ht2 : b.reviewer_id = a.reviewer_id)
    (ht3 : b.reviewee_id = a.reviewee_id)
    (hb : 1 ≤ b.rating ∧ b.rating ≤ 5)
    (hFirst : insertReview db a i1 n1 = .ok db') :
    insertReview db' b i2 n2 = .error (.uniqueViolation "unique_review_per_ride_pair") ∧
    (⟨i1, a.ride_id, a.reviewer_id, a.reviewee_id, a.rating, a.comment, n1⟩ : ReviewRow) ∈ db'.reviews ∧
    (List.Pairwise tripleDistinct db.reviews → List.Pairwise tripleDistinct db'.reviews) := by
  simp only [insertReview] at hFirst
  split_ifs at hFirst with h1 h2 h3 h4 h5
  injection hFirst with hEq
  subst hEq
  refine ⟨?_, ?_, ?_⟩
  · simp [insertReview, hb, List.any_append, reviewTripleMatches, ht1, ht2, ht3]
  · simp
  · intro hp
    simp only [List.pairwise_append]
    refine ⟨hp, by simp, ?_⟩
    intro r hr s hs
    simp only [List.mem_singleton] at hs
    subst hs
    intro hc
    apply h2
    rw [List.any_eq_true]
    refine ⟨r, hr, ?_⟩
    simp only [reviewTripleMatches]
    simp [hc.1, hc.2.1, hc.2.2]

/-- Witness for C5: a duplicate of a stored (ride 1, reviewer 2,
reviewee 3) review is rejected with the uniqueness violation while the
first row survives. -/
theorem review_triple_uniqueness_witness :
    insertReview ⟨[1], [2, 3], [], [⟨21, 1, 2, 3, 5, none, 201⟩]⟩ ⟨1, 2, 3, 4, some "dup"⟩ 22 202 =
      .error (.uniqueViolation "unique_review_per_ride_pair") ∧
    (⟨21, 1, 2, 3, 5, none, 201⟩ : ReviewRow) ∈
      (⟨[1], [2, 3], [], [⟨21, 1, 2, 3, 5, none, 201⟩]⟩ : Db).reviews :=
  have h := review_triple_uniqueness ⟨[1], [2, 3], [], []⟩ ⟨[1], [2, 3], [], [⟨21, 1, 2, 3, 5, none, 201⟩]⟩
    ⟨1, 2, 3, 5, none⟩ ⟨1, 2, 3, 4, some "dup"⟩ 21 201 22 202 rfl rfl rfl (by decide) (by rfl)
  ⟨h.1, h.2.1⟩

/-- C6: deleting a ride removes the ride and every booking and review
that references it, deleting a user removes the user and every booking
and review that references it as passenger, reviewer or reviewee, the
delete is never blocked, and referential integrity is preserved (no
orphaned rows remain). -/
theorem cascade_delete (db : Db) (rid uid : Nat) :
    rid ∉ (deleteRide db rid).rides ∧
    (∀ b ∈ (deleteRide db rid).bookings, b.ride_id ≠ rid) ∧
    (∀ r ∈ (deleteRide db rid).reviews, r.ride_id ≠ rid) ∧
    (refIntegrity db → refIntegrity (deleteRide db rid)) ∧
    uid ∉ (deleteUser db uid).users ∧
    (∀ b ∈ (deleteUser db uid).bookings, b.passenger_id ≠ uid) ∧
    (∀ r ∈ (deleteUser db uid).reviews, r.reviewer_id ≠ uid ∧ r.reviewee_id ≠ uid) ∧
    (refIntegrity db → refIntegrity (deleteUser db uid)) := by
  refine ⟨?_, ?_, ?_, ?_, ?_, ?_, ?_, ?_⟩
  · simp [deleteRide, List.mem_filter]
  · intro b hb
    simp only [deleteRide, List.mem_filter, decide_eq_true_eq] at hb
    exact hb.2
  · intro r hr
    simp only [deleteRide, List.mem_filter, decide_eq_true_eq] at hr
    exact hr.2
  · rintro ⟨hB, hR⟩
    constructor
    · intro b hb
      simp only [deleteRide, List.mem_filter, decide_eq_true_eq] at hb ⊢
      exact ⟨⟨(hB b hb.1).1, hb.2⟩, (hB b hb.1).2⟩
    · intro r hr
      simp only [deleteRide, List.mem_filter, decide_eq_true_eq] at hr ⊢
      exact ⟨⟨(hR r hr.1).1, hr.2⟩, (hR r hr.1).2.1, (hR r hr.1).2.2⟩
  · simp [deleteUser, List.mem_filter]
  · intro b hb
    simp only [deleteUser, List.mem_filter, decide_eq_true_eq] at hb
    exact hb.2
  · intro r hr
    simp only [deleteUser, List.mem_filter, decide_eq_true_eq] at hr
    exact hr.2
  · rintro ⟨hB, hR⟩
    constructor
    · intro b hb
      simp only [deleteUser, List.mem_filter, decide_eq_true_eq] at hb ⊢
      exact ⟨(hB b hb.1).1, (hB b hb.1).2, hb.2⟩
    · intro r hr
      simp only [deleteUser, List.mem_filter, decide_eq_true_eq] at hr ⊢
      exact ⟨(hR r hr.1).1, ⟨(hR r hr.1).2.1, hr.2.1⟩, (hR r hr.1).2.2, hr.2.2⟩

/-- Witness for C6: deleting ride 1, and separately user 2, from a
concrete store with one dependent booking and one dependent review
leaves a store that still satisfies referential integrity. -/
theorem cascade_delete_witness :
    refIntegrity (deleteRide ⟨[1], [2, 3], [⟨5, 1, 2, 1, 0, "pending", 9⟩],
        [⟨6, 1, 2, 3, 5, none, 9⟩]⟩ 1) ∧
    refIntegrity (deleteUser ⟨[1], [2, 3], [⟨5, 1, 2, 1, 0, "pending", 9⟩],
        [⟨6, 1, 2, 3, 5, none, 9⟩]⟩ 2) :=
  have h := cascade_delete ⟨[1], [2, 3], [⟨5, 1, 2, 1, 0, "pending", 9⟩],
    [⟨6, 1, 2, 3, 5, none, 9⟩]⟩ 1 2
  ⟨h.2.2.2.1 (by decide), h.2.2.2.2.2.2.2 (by decide)⟩

/-! ### Claims about the URL computation -/

/-- Splitting at a marker decomposes the string: the part before the
first occurrence followed by the part from the first occurrence. -/
theorem takeBeforeFirst_append_fromFirst (pat s : List Char) :
    takeBeforeFirst pat s ++ fromFirst pat s = s := by
  induction s with
  | nil => rfl
  | cons c t ih =>
    by_cases h : pat.isPrefixOf (c :: t)
    · simp [takeBeforeFirst, fromFirst, h]
    · simp [takeBeforeFirst, fromFirst, h, ih]

/-- When the marker occurs, the tail returned by `fromFirst` does start
with the marker. -/
theorem isPrefixOf_fromFirst (pat s : List Char) (h : containsSub pat s = true) :
    pat.isPrefixOf (fromFirst pat s) = true := by
  induction s with
  | nil => exact h
  | cons c t ih =>
    by_cases hp : pat.isPrefixOf (c :: t)
    · simp [fromFirst, hp]
    · have h' : containsSub pat t = true := by
        simpa [containsSub, hp] using h
      simpa [fromFirst, hp] using ih h'

/-- A list is recognised by `isPrefixOf` at the head of any extension
of itself. -/
theorem isPrefixOf_append_self : ∀ l1 l2 : List Char, l1.isPrefixOf (l1 ++ l2) = true := by
  intro l1
  induction l1 with
  | nil =>
    intro l2
    cases l2 <;> rfl
  | cons c t ih =>
    intro l2
    simp [List.isPrefixOf, ih]

/-- `takeBeforeFirst` stops at the FIRST occurrence: it is no longer
than the prefix of any decomposition of `s` around the marker. -/
theorem takeBeforeFirst_length_min (pat : List Char) :
    ∀ s p r : List Char, s = p ++ pat ++ r → (takeBeforeFirst pat s).length ≤ p.length := by
  intro s
  induction s with
  | nil =>
    intro p r _
    simp [takeBeforeFirst]
  | cons c t ih =>
    intro p r h
    by_cases hp : pat.isPrefixOf (c :: t)
    · simp [takeBeforeFirst, hp]
    · cases p with
      | nil =>
        exfalso
        apply hp
        simp only [List.nil_append] at h
        rw [h]
        exact isPrefixOf_append_self pat r
      | cons p0 p' =>
        simp only [List.cons_append] at h
        have h' : t = p' ++ pat ++ r := (List.cons.inj h).2
        simp only [takeBeforeFirst, hp, if_neg, List.length_cons]
        exact Nat.succ_le_succ (ih p' r h')

/-- C10: on a rewritten URL that contains `render.com` and an sslmode
marker, the module truncates at the FIRST occurrence of the marker,
discarding the marker and everything after it: the resulting
`ASYNC_DATABASE_URL` is exactly the prefix before that first occurrence
(whatever query parameters follow it), for the `?sslmode=` marker and,
failing that, for the `&sslmode=` marker. -/
theorem sslmode_strip_truncates (u : List Char)
    (hr : containsSub renderPat (schemeRewrite u) = true) :
    (containsSub qmPat (schemeRewrite u) = true →
      asyncDatabaseUrl u = takeBeforeFirst qmPat (schemeRewrite u) ∧
      takeBeforeFirst qmPat (schemeRewrite u) ++ fromFirst qmPat (schemeRewrite u) = schemeRewrite u ∧
      qmPat.isPrefixOf (fromFirst qmPat (schemeRewrite u)) = true ∧
      (∀ p r : List Char, schemeRewrite u = p ++ qmPat ++ r →
        (takeBeforeFirst qmPat (schemeRewrite u)).length ≤ p.length)) ∧
    (containsSub qmPat (schemeRewrite u) = false →
      containsSub ampPat (schemeRewrite u) = true →
      asyncDatabaseUrl u = takeBeforeFirst ampPat (schemeRewrite u) ∧
      takeBeforeFirst ampPat (schemeRewrite u) ++ fromFirst ampPat (schemeRewrite u) = schemeRewrite u ∧
      ampPat.isPrefixOf (fromFirst ampPat (schemeRewrite u)) = true ∧
      (∀ p r : List Char, schemeRewrite u = p ++ ampPat ++ r →
        (takeBeforeFirst ampPat (schemeRewrite u)).length ≤ p.length)) := by
  constructor
  · intro hq
    refine ⟨?_, takeBeforeFirst_append_fromFirst qmPat (schemeRewrite u),
      isPrefixOf_fromFirst qmPat (schemeRewrite u) hq,
      fun p r h => takeBeforeFirst_length_min qmPat (schemeRewrite u) p r h⟩
    simp [asyncDatabaseUrl, stripSslmode, hr, hq]
  · intro hq ha
    refine ⟨?_, takeBeforeFirst_append_fromFirst ampPat (schemeRewrite u),
      isPrefixOf_fromFirst ampPat (schemeRewrite u) ha,
      fun p r h => takeBeforeFirst_length_min ampPat (schemeRewrite u) p r h⟩
    simp [asyncDatabaseUrl, stripSslmode, hr, hq, ha]

/-- Witness for C10: a Render URL whose sslmode value is followed by a
further query parameter is truncated to the prefix before `?sslmode=`,
and that discarded tail indeed starts with the marker. -/
theorem sslmode_strip_truncates_witness :
    asyncDatabaseUrl "postgresql://u@h.render.com/db?sslmode=require&keep=1".toList =
      takeBeforeFirst qmPat (schemeRewrite "postgresql://u@h.render.com/db?sslmode=require&keep=1".toList) ∧
    qmPat.isPrefixOf (fromFirst qmPat
      (schemeRewrite "postgresql://u@h.render.com/db?sslmode=require&keep=1".toList)) = true :=
  have h := sslmode_strip_truncates "postgresql://u@h.render.com/db?sslmode=require&keep=1".toList
    (by decide)
  ⟨(h.1 (by decide)).1, (h.1 (by decide)).2.2.1⟩

/-- The fuel argument of `replacePgAux` is irrelevant as long as it
covers the length of the input. -/
theorem replacePgAux_congr : ∀ (f g : Nat) (s : List Char),
    s.length ≤ f → s.length ≤ g → replacePgAux f s = replacePgAux g s := by
  intro f
  induction f with
  | zero =>
    intro g s hf _
    have hs : s = [] := List.eq_nil_of_length_eq_zero (Nat.le_zero.mp hf)
    subst hs
    cases g <;> rfl
  | succ f ih =>
    intro g s hf hg
    cases s with
    | nil => cases g <;> rfl
    | cons c t =>
      cases g with
      | zero => exact absurd hg (by simp)
      | succ g =>
        simp only [replacePgAux]
        by_cases hp : pgPat.isPrefixOf (c :: t)
        · simp only [hp, if_true]
          congr 1
          apply ih
          · have := List.length_drop 12 t
            simp only [List.length_cons] at hf
            omega
          · have := List.length_drop 12 t
            simp only [List.length_cons] at hg
            omega
        · simp only [hp, if_false, Bool.false_eq_true]
          congr 1
          apply ih
          · simp only [List.length_cons] at hf
            omega
          · simp only [List.length_cons] at hg
            omega

/-- Python `replace` semantics at a matching head: the occurrence is
replaced and scanning continues after it (so later occurrences are
replaced too). -/
theorem replacePg_head (t : List Char) :
    replacePg (pgPat ++ t) = pgRep ++ replacePg t := by
  have hp : pgPat.isPrefixOf (pgPat ++ t) = true := isPrefixOf_append_self pgPat t
  have hcons : pgPat ++ t = 'p' :: ("ostgresql://".toList ++ t) := rfl
  have hlen : (pgPat ++ t).length = ("ostgresql://".toList ++ t).length + 1 := rfl
  have hdrop : List.drop 12 ("ostgresql://".toList ++ t) = t := rfl
  rw [hcons] at hp
  show replacePgAux (pgPat ++ t).length (pgPat ++ t) = pgRep ++ replacePg t
  rw [hlen, hcons]
  simp only [replacePgAux, hp, if_true, hdrop]
  congr 1
  refine replacePgAux_congr _ _ t ?_ (Nat.le_refl _)
  rw [List.length_append]
  exact Nat.le_add_left t.length _

/-- Counterexample to C8 as stated, at the concrete connection string
`postgresql://postgresql://host?sslmode=r&x=render.com`: the string
starts with `postgresql://`, yet the code's rewrite is not the claimed
prefix-only rewrite (the later occurrence is rewritten too); and the
string contains `render.com`, yet after the sslmode stripping the
engine is configured with `connect_args` NOT enabling SSL (the claim
demands `connect_args["ssl"] = True`). -/
theorem url_rewrite_ssl_claim_counterexample :
    pgPat.isPrefixOf "postgresql://postgresql://host?sslmode=r&x=render.com".toList = true ∧
    schemeRewrite "postgresql://postgresql://host?sslmode=r&x=render.com".toList ≠
      pgRep ++ List.drop 13 "postgresql://postgresql://host?sslmode=r&x=render.com".toList ∧
    containsSub renderPat "postgresql://postgresql://host?sslmode=r&x=render.com".toList = true ∧
    (init_db (asyncDatabaseUrl "postgresql://postgresql://host?sslmode=r&x=render.com".toList)
        { asyncEngine := none, asyncSessionFactory := none }).asyncEngine.map
      EngineConf.connectArgsSsl = some false := by
  decide

/-- C8 as amended: a URL not starting with `postgresql://` is unchanged
by the rewrite step; one starting with it has that occurrence AND every
later occurrence replaced (Python `replace` replaces all); when the
rewritten URL does not contain `render.com` the sslmode stripping is
skipped; and the engine's `connect_args` enable SSL exactly when the
final `ASYNC_DATABASE_URL` (after stripping) contains `render.com`. -/
theorem url_rewrite_and_ssl_amended (u : List Char) (st : DbState) :
    (pgPat.isPrefixOf u = false → schemeRewrite u = u) ∧
    (∀ t : List Char, u = pgPat ++ t → schemeRewrite u = pgRep ++ replacePg t) ∧
    (containsSub renderPat (schemeRewrite u) = false → asyncDatabaseUrl u = schemeRewrite u) ∧
    ((init_db (asyncDatabaseUrl u) st).asyncEngine.map EngineConf.connectArgsSsl =
      some (containsSub renderPat (asyncDatabaseUrl u))) := by
  refine ⟨?_, ?_, ?_, rfl⟩
  · intro h
    simp [schemeRewrite, h]
  · rintro t rfl
    simp [schemeRewrite, isPrefixOf_append_self pgPat t, replacePg_head]
  · intro h
    simp [asyncDatabaseUrl, stripSslmode, h]

/-- Witness for the amended C8 at concrete URLs: a non-postgresql URL
passes through unchanged, a postgresql URL is decomposed as prefix
replacement plus replacement of the remainder, and a URL without
`render.com` skips the stripping step. -/
theorem url_rewrite_and_ssl_amended_witness :
    schemeRewrite "mysql://h".toList = "mysql://h".toList ∧
    schemeRewrite "postgresql://h".toList = pgRep ++ replacePg "h".toList ∧
    asyncDatabaseUrl "postgresql://h".toList = schemeRewrite "postgresql://h".toList :=
  have h1 := url_rewrite_and_ssl_amended "mysql://h".toList
    { asyncEngine := none, asyncSessionFactory := none }
  have h2 := url_rewrite_and_ssl_amended "postgresql://h".toList
    { asyncEngine := none, asyncSessionFactory := none }
  ⟨h1.1 (by decide), h2.2.1 "h".toList (by decide), h2.2.2.1 (by decide)⟩

end FareShare
